import Mathlib

/-!
Verification of the search-classify-filter pipeline of the
`streamlit_cloud` repository (files `reddit_api.py`, `openai_classifier.py`,
`app.py`) against its natural-language specification.

The Python code is shallowly embedded: raw/formatted/classified posts
become Lean structures, each Python function becomes an executable Lean
function translated statement-by-statement from the source, and the
stateful UI orchestration in `app.py:search_reddit` becomes a pure
function over explicit inputs returning a `SearchResult`.  External
library behaviour (`datetime.fromtimestamp`/`strftime` and pandas
`pd.to_datetime` on the single `'%Y-%m-%d %H:%M:%S'` shape that
`format_posts` emits) is implemented concretely via the standard civil
calendar algorithms so that everything evaluates.
-/

/-- Python `str.lower()`.  The embedding lowercases ASCII letters; every
keyword table in the source is already lower-case and the accented
characters occurring in them are already lower-case letters. -/
def pyLower (s : String) : String := String.mk (s.data.map Char.toLower)

/-- Substring occurrence on character lists, used to embed Python's
`pat in s` test on strings (empty pattern occurs everywhere, as in
Python). -/
def listIsSub (pat : List Char) : List Char → Bool
  | [] => pat.isEmpty
  | c :: rest => pat.isPrefixOf (c :: rest) || listIsSub pat rest

/-- Python `pat in s` for strings: substring containment. -/
def pyIn (pat s : String) : Bool := listIsSub pat.data s.data

/-- Raw Reddit post dict as produced by `RedditAPI._generate_mock_data`
(and by PRAW): all ten keys are always present, so the `.get` defaults
in `format_posts` are never exercised on pipeline data. -/
structure RawPost where
  id : String
  title : String
  selftext : String
  author : String
  subreddit : String
  score : Int
  num_comments : Nat
  created_utc : Nat
  full_link : String
  is_self : Bool
deriving DecidableEq

/-- One row of the DataFrame built by `RedditAPI.format_posts`. -/
structure FormattedPost where
  id : String
  title : String
  selftext : String
  author : String
  subreddit : String
  score : Int
  num_comments : Nat
  created_date : String
  url : String
  is_self : Bool
deriving DecidableEq

/-- The four-field classification dict returned by
`OpenAIClassifier.classify_post` / `_mock_classify_post`
(keys `categoria`, `sentimento`, `tópicos`, `insights`). -/
structure Classification where
  categoria : String
  sentimento : String
  topicos : List String
  insights : List String
deriving DecidableEq

/-- A DataFrame row after `classify_posts_dataframe`: the formatted
fields plus the four classification columns.  As in the source, the
topic and insight lists are stored joined (`', '.join` / `'; '.join`). -/
structure ClassifiedPost where
  id : String
  title : String
  selftext : String
  author : String
  subreddit : String
  score : Int
  num_comments : Nat
  created_date : String
  url : String
  is_self : Bool
  categoria : String
  sentimento : String
  topicos : String
  insights : String
deriving DecidableEq

/- ------------------------------------------------------------------
Calendar arithmetic: concrete embedding of the external library calls
`datetime.fromtimestamp(ts).strftime('%Y-%m-%d %H:%M:%S')` (used by
`format_posts`) and `pd.to_datetime` (used by the date filter in
`app.py:search_reddit`), on one consistent naive clock.  The
civil-from-days / days-from-civil computations are the standard
Gregorian era algorithms, valid for the non-negative timestamps the
pipeline handles.
------------------------------------------------------------------ -/

/-- Day count of a Gregorian month (`pd.to_datetime` rejects out-of-range
days, so the parser below validates against this). -/
def daysInMonth (y m : Nat) : Nat :=
  if m = 2 then
    (if (y % 4 = 0 && y % 100 ≠ 0) || y % 400 = 0 then 29 else 28)
  else if m = 4 || m = 6 || m = 9 || m = 11 then 30 else 31

/-- Days of a civil date counted from 0000-03-01 (rata-die style, the
era-based days-from-civil algorithm), for years ≥ 1. -/
def rataDie (y m d : Nat) : Nat :=
  let y' := if m ≤ 2 then y - 1 else y
  let era := y' / 400
  let yoe := y' % 400
  let mp := (m + 9) % 12
  let doy := (153 * mp + 2) / 5 + d - 1
  let doe := yoe * 365 + yoe / 4 - yoe / 100 + doy
  era * 146097 + doe

/-- Inverse of `rataDie`: civil `(year, month, day)` from a day count
since 0000-03-01. -/
def civilFromZ (z : Nat) : Nat × Nat × Nat :=
  let era := z / 146097
  let doe := z % 146097
  let yoe := (doe - doe / 1460 + doe / 36524 - doe / 146096) / 365
  let y := yoe + era * 400
  let doy := doe - (365 * yoe + yoe / 4 - yoe / 100)
  let mp := (5 * doy + 2) / 153
  let d := doy - (153 * mp + 2) / 5 + 1
  let m := if mp < 10 then mp + 3 else mp - 9
  (if m ≤ 2 then y + 1 else y, m, d)

/-- Zero-padded two-digit rendering, as `strftime` produces. -/
def pad2 (n : Nat) : String := if n < 10 then "0" ++ toString n else toString n

/-- `datetime.fromtimestamp(ts).strftime('%Y-%m-%d %H:%M:%S')` for the
non-negative Unix timestamps generated for `created_utc`. -/
def fmtTimestamp (ts : Nat) : String :=
  let z := ts / 86400 + 719468
  let c := civilFromZ z
  let secs := ts % 86400
  toString c.1 ++ "-" ++ pad2 c.2.1 ++ "-" ++ pad2 c.2.2 ++ " " ++
    pad2 (secs / 3600) ++ ":" ++ pad2 (secs % 3600 / 60) ++ ":" ++ pad2 (secs % 60)

/-- Decimal value of a digit character. -/
def digitVal (c : Char) : Nat := c.toNat - 48

/-- `pd.to_datetime` restricted to the `'%Y-%m-%d %H:%M:%S'` shape that
`format_posts` writes into `created_date`: it yields the timestamp in
seconds for a valid date-time of that shape and `none` (pandas raises)
otherwise.  Other textual shapes pandas would accept never reach the
filter in this program. -/
def parseDate (s : String) : Option Int :=
  match s.data with
  | [y1, y2, y3, y4, '-', m1, m2, '-', d1, d2, ' ', h1, h2, ':', n1, n2, ':', s1, s2] =>
    if ([y1, y2, y3, y4, m1, m2, d1, d2, h1, h2, n1, n2, s1, s2].all Char.isDigit) then
      let y := digitVal y1 * 1000 + digitVal y2 * 100 + digitVal y3 * 10 + digitVal y4
      let mo := digitVal m1 * 10 + digitVal m2
      let d := digitVal d1 * 10 + digitVal d2
      let h := digitVal h1 * 10 + digitVal h2
      let mi := digitVal n1 * 10 + digitVal n2
      let sec := digitVal s1 * 10 + digitVal s2
      if 1 ≤ y && 1 ≤ mo && mo ≤ 12 && 1 ≤ d && d ≤ daysInMonth y mo &&
          h ≤ 23 && mi ≤ 59 && sec ≤ 59 then
        some (((rataDie y mo d : Int) - 719468) * 86400 + h * 3600 + mi * 60 + sec)
      else none
    else none
  | _ => none

/- ------------------------------------------------------------------
`reddit_api.py`
------------------------------------------------------------------ -/

/-- One insertion step of a stable descending sort by `created_utc`,
embedding `posts.sort(key=lambda x: x['created_utc'], reverse=True)`
(Python's sort is stable; a stable descending order is unique, so any
stable descending sort is extensionally the one Python produces). -/
def insertDesc (p : RawPost) : List RawPost → List RawPost
  | [] => [p]
  | q :: qs => if q.created_utc ≤ p.created_utc then p :: q :: qs else q :: insertDesc p qs

/-- Stable sort of posts by `created_utc`, newest first. -/
def sortByCreatedDesc (ps : List RawPost) : List RawPost := ps.foldr insertDesc []

/-- The mock corpus: the JSON store written by `_ensure_mock_data`,
a dict from topic key to post list (association list in insertion
order, keys distinct as in a Python dict). -/
abbrev MockData := List (String × List RawPost)

/-- Dict lookup `mock_data[k]`. -/
def lookupTopic (md : MockData) (k : String) : Option (List RawPost) :=
  (md.find? (fun kv => kv.1 == k)).map (fun kv => kv.2)

/-- `RedditAPI._search_mock_data`: exact topic lookup, otherwise a
substring scan over topic keys (taking whole topics) and over titles
and bodies; then the optional subreddit filter, newest-first sort and
truncation to `limit`. -/
def searchMockData (md : MockData) (query : String) (subreddit : Option String)
    (limit : Nat) : List RawPost :=
  let q := pyLower query
  let results :=
    match lookupTopic md q with
    | some posts => posts
    | none =>
        md.foldl (fun acc kv =>
          if pyIn q kv.1 then acc ++ kv.2
          else acc ++ kv.2.filter (fun p =>
            pyIn q (pyLower p.title) || pyIn q (pyLower p.selftext))) []
  let results :=
    match subreddit with
    | some s => if s ≠ "" then
        results.filter (fun p => pyLower p.subreddit == pyLower s)
      else results
    | none => results
  (sortByCreatedDesc results).take limit

/-- `RedditAPI.search_posts`: in mock mode it searches the mock corpus;
in live mode the PRAW integration is not implemented, so after printing
a notice it falls back to exactly the same mock-corpus search (the
rate-limit sleep is pure timing and has no effect on the result). -/
def searchPosts (md : MockData) (query : String) (subreddit : Option String)
    (limit : Nat) (use_mock_data : Bool) : List RawPost :=
  if use_mock_data then searchMockData md query subreddit limit
  else searchMockData md query subreddit limit

/-- One row of `RedditAPI.format_posts`: body truncated at 500
characters with an ellipsis marker, timestamp rendered with
`strftime('%Y-%m-%d %H:%M:%S')`, and `url` taken verbatim from
`full_link`. -/
def fmtPost (p : RawPost) : FormattedPost :=
  { id := p.id
    title := p.title
    selftext := p.selftext.take 500 ++ (if 500 < p.selftext.length then "..." else "")
    author := p.author
    subreddit := p.subreddit
    score := p.score
    num_comments := p.num_comments
    created_date := fmtTimestamp p.created_utc
    url := p.full_link
    is_self := p.is_self }

/-- `RedditAPI.format_posts` (the empty-input early return yields the
empty DataFrame, i.e. the empty list). -/
def formatPosts (posts : List RawPost) : List FormattedPost := posts.map fmtPost

/- ------------------------------------------------------------------
`openai_classifier.py`
------------------------------------------------------------------ -/

/-- The closed category vocabulary listed in `_mock_classify_post`. -/
def categories : List String :=
  ["Pergunta", "Discussão", "Pedido de Ajuda", "Tutorial",
   "Compartilhamento", "Notícia", "Opinião", "Desabafo"]

/-- The sentiment vocabulary listed in `_mock_classify_post`. -/
def sentiments : List String := ["Positivo", "Neutro", "Negativo", "Misto"]

/-- Positive sentiment keywords of the rule-based fallback. -/
def positiveWords : List String :=
  ["ótimo", "excelente", "bom", "gosto", "feliz", "sucesso"]

/-- Negative sentiment keywords of the rule-based fallback. -/
def negativeWords : List String :=
  ["ruim", "péssimo", "problema", "difícil", "frustrado", "triste"]

/-- Contrast connectives of the rule-based fallback. -/
def contrastWords : List String := ["mas", "porém", "entretanto", "contudo"]

/-- The keyword→topic dictionary of the rule-based fallback, in source
order. -/
def topicKeywords : List (String × List String) :=
  [("Programação", ["código", "programação", "programar", "função", "algoritmo"]),
   ("Tecnologia", ["tecnologia", "tech", "inovação", "gadget", "dispositivo"]),
   ("Carreira", ["carreira", "emprego", "trabalho", "vaga", "entrevista", "cv", "currículo"]),
   ("Educação", ["aprender", "curso", "estudar", "faculdade", "universidade", "bootcamp"]),
   ("Desenvolvimento Web", ["web", "site", "frontend", "backend", "html", "css", "javascript"]),
   ("Ciência de Dados", ["dados", "data", "análise", "estatística", "pandas", "visualização"]),
   ("Inteligência Artificial", ["ia", "ai", "machine learning", "ml", "modelo", "gpt", "neural"]),
   ("Produtividade", ["produtividade", "eficiência", "organização", "tempo", "hábito"]),
   ("Negócios", ["negócio", "empresa", "startup", "empreendedor", "mercado", "cliente"]),
   ("Marketing", ["marketing", "divulgação", "propaganda", "audiência", "cliente", "seo"]),
   ("Design", ["design", "ui", "ux", "interface", "usuário", "experiência", "visual"]),
   ("Mobile", ["mobile", "app", "aplicativo", "android", "ios", "celular", "smartphone"])]

/-- Category derivation of `_mock_classify_post`: keyword presence in
the title (the `"?"` test runs on the raw title, the rest on the
lower-cased title), first match in source order, default `Discussão`. -/
def mockCategory (post_title : String) : String :=
  let title_lower := pyLower post_title
  if pyIn "?" post_title || pyIn "como" title_lower || pyIn "dúvida" title_lower then
    "Pergunta"
  else if pyIn "ajuda" title_lower || pyIn "problema" title_lower then
    "Pedido de Ajuda"
  else if pyIn "tutorial" title_lower || pyIn "guia" title_lower ||
      pyIn "como fazer" title_lower then
    "Tutorial"
  else if pyIn "notícia" title_lower || pyIn "lançamento" title_lower ||
      pyIn "anúncio" title_lower then
    "Notícia"
  else if pyIn "opinião" title_lower || pyIn "acho que" title_lower then
    "Opinião"
  else if pyIn "compartilhando" title_lower || pyIn "criei" title_lower then
    "Compartilhamento"
  else if pyIn "desabafo" title_lower || pyIn "frustrado" title_lower then
    "Desabafo"
  else "Discussão"

/-- Sentiment derivation of `_mock_classify_post` over the lower-cased
body: the `if/elif` chain tests the positive list, then the negative
list, then the contrast-plus-both-polarities condition for `Misto`,
defaulting to `Neutro`. -/
def mockSentiment (text_lower : String) : String :=
  if positiveWords.any (fun w => pyIn w text_lower) then "Positivo"
  else if negativeWords.any (fun w => pyIn w text_lower) then "Negativo"
  else if contrastWords.any (fun w => pyIn w text_lower) &&
      (["bom", "gosto"].any (fun w => pyIn w text_lower) &&
       ["ruim", "problema"].any (fun w => pyIn w text_lower)) then "Misto"
  else "Neutro"

/-- Topic derivation of `_mock_classify_post`: every dictionary topic
one of whose keywords occurs in the lower-cased title or body, in
dictionary order, with the generic fallback topic when none matches. -/
def mockTopics (title_lower text_lower : String) : List String :=
  let post_topics :=
    (topicKeywords.filter (fun tk =>
      tk.2.any (fun k => pyIn k title_lower || pyIn k text_lower))).map (fun tk => tk.1)
  if post_topics = [] then ["Discussão Geral"] else post_topics

/-- The four conditional insight appends of `_mock_classify_post`, in
source order. -/
def insightsBase (category sentiment : String) (post_topics : List String) : List String :=
  (if category == "Pergunta" || category == "Pedido de Ajuda" then
    ["O usuário está buscando informações ou assistência."] else []) ++
  (if sentiment == "Negativo" then
    ["O tom do post sugere frustração ou dificuldade com o assunto."]
   else if sentiment == "Positivo" then
    ["O usuário demonstra entusiasmo ou satisfação com o tema."] else []) ++
  (if post_topics.contains "Programação" || post_topics.contains "Desenvolvimento Web" then
    ["Este post está relacionado a desenvolvimento de software."] else []) ++
  (if post_topics.contains "Carreira" then
    ["O usuário pode estar em transição de carreira ou buscando crescimento profissional."]
   else [])

/-- Insight derivation of `_mock_classify_post`: the conditional
appends, plus the generic insight when fewer than two were produced. -/
def mockInsights (category sentiment : String) (post_topics : List String) : List String :=
  let insights := insightsBase category sentiment post_topics
  if insights.length < 2 then
    insights ++ ["Este post parece ser relevante para a comunidade de tecnologia."]
  else insights

/-- `OpenAIClassifier._mock_classify_post`: the deterministic rule-based
fallback classifier. -/
def mockClassify (post_title post_text : String) : Classification :=
  let title_lower := pyLower post_title
  let text_lower := pyLower post_text
  let category := mockCategory post_title
  let sentiment := mockSentiment text_lower
  let post_topics := mockTopics title_lower text_lower
  { categoria := category
    sentimento := sentiment
    topicos := post_topics
    insights := mockInsights category sentiment post_topics }

/-- `OpenAIClassifier.classify_post`.  The remote path is modelled by
`remote : Option Classification`: `some c` is a transport-, auth- and
JSON-parse-successful response, `none` is any failure of the `try`
block (or a missing key), which the source catches and answers with
`_mock_classify_post`; in mock mode the fallback is used directly.
Totality of this function embeds the no-exception-escapes contract. -/
def classify_post (remote : Option Classification) (use_mock : Bool)
    (post_title post_text : String) : Classification :=
  if use_mock then mockClassify post_title post_text
  else
    match remote with
    | some c => c
    | none => mockClassify post_title post_text

/-- `OpenAIClassifier.classify_posts_dataframe`: one `classify_post`
call per row, its four fields attached to the row with the topic and
insight lists joined for display. -/
def classifyAll (classify : String → String → Classification)
    (df : List FormattedPost) : List ClassifiedPost :=
  df.map (fun p =>
    let c := classify p.title p.selftext
    { id := p.id, title := p.title, selftext := p.selftext, author := p.author,
      subreddit := p.subreddit, score := p.score, num_comments := p.num_comments,
      created_date := p.created_date, url := p.url, is_self := p.is_self,
      categoria := c.categoria, sentimento := c.sentimento,
      topicos := String.intercalate ", " c.topicos,
      insights := String.intercalate "; " c.insights })

/-- Number of `classify_post` invocations `classify_posts_dataframe`
performs on a DataFrame: exactly one per row (the `for i, row in
df.iterrows()` loop). -/
def classifyCalls (df : List FormattedPost) : Nat := df.length

/- ------------------------------------------------------------------
`app.py`
------------------------------------------------------------------ -/

/-- `app.is_url`: the program's notion of an absolute, directly
dereferenceable URL (`text.startswith` on the two `http` schemes,
embedded as prefix tests on the character lists). -/
def is_url (text : String) : Bool :=
  "http://".data.isPrefixOf text.data || "https://".data.isPrefixOf text.data

/-- `app.POST_TYPES`: the category filter choices, the all-types
sentinel first. -/
def POST_TYPES : List String :=
  ["Todos os tipos", "Pergunta", "Discussão", "Pedido de Ajuda",
   "Tutorial", "Compartilhamento", "Notícia", "Opinião", "Desabafo"]

/-- The filter options of `search_reddit` (`days_ago`, `only_text`,
`post_type`). -/
structure FilterOpts where
  days_ago : Option Nat
  only_text : Bool
  post_type : Option String
deriving DecidableEq

/-- Python truthiness of the `days_ago` argument (`if days_ago:`):
present and non-zero. -/
def daysTruthy : Option Nat → Bool
  | none => false
  | some d => d != 0

/-- Python truthiness-and-sentinel test of the `post_type` argument
(`if post_type and post_type != "Todos os tipos":`). -/
def typeTruthy : Option String → Bool
  | none => false
  | some s => s != "" && s != "Todos os tipos"

/-- The row predicate of the date filter:
`filtered_df['datetime'] >= current_date - timedelta(days=days_ago)`,
on the timestamps `pd.to_datetime` extracted (the `none` arm is
unreachable under the all-parsed guard of `dateFilter`). -/
def datePred (now : Int) (d : Nat) (p : ClassifiedPost) : Bool :=
  match parseDate p.created_date with
  | some t => decide (now - 86400 * (d : Int) ≤ t)
  | none => true

/-- The date filter of `search_reddit`: enabled by a truthy `days_ago`;
`pd.to_datetime` over the column either converts every row or raises,
and the surrounding `try/except` skips the whole filter on a raise
(fail-open), leaving the set untouched. -/
def dateFilter (now : Int) (days_ago : Option Nat)
    (ps : List ClassifiedPost) : List ClassifiedPost :=
  if daysTruthy days_ago then
    if ps.all (fun p => (parseDate p.created_date).isSome) then
      ps.filter (datePred now (days_ago.getD 0))
    else ps
  else ps

/-- The body-length predicate of the only-text filter
(`filtered_df['selftext'].str.len() > 10`). -/
def textPred (p : ClassifiedPost) : Bool := decide (10 < p.selftext.length)

/-- The only-text filter of `search_reddit`. -/
def textFilter (only_text : Bool) (ps : List ClassifiedPost) : List ClassifiedPost :=
  if only_text then ps.filter textPred else ps

/-- The row predicate of the category filter
(`filtered_df['categoria'].str.lower() == post_type.lower()`). -/
def catPred (post_type : Option String) (p : ClassifiedPost) : Bool :=
  pyLower p.categoria == pyLower (post_type.getD "")

/-- The category filter of `search_reddit`: enabled by a truthy,
non-sentinel `post_type`; case-insensitive equality on `categoria`. -/
def categoryFilter (post_type : Option String)
    (ps : List ClassifiedPost) : List ClassifiedPost :=
  if typeTruthy post_type then ps.filter (catPred post_type) else ps

/-- The `filters_applied` flag of `search_reddit`: set by each enabled
filter (for the date filter it is set before the `try`, hence even when
a parse error skips the predicate). -/
def filtersApplied (opts : FilterOpts) : Bool :=
  daysTruthy opts.days_ago || opts.only_text || typeTruthy opts.post_type

/-- The whole filter stage of `search_reddit`: date, then only-text,
then category, conjunctively on the classified set. -/
def applyFilters (now : Int) (opts : FilterOpts)
    (ps : List ClassifiedPost) : List ClassifiedPost :=
  categoryFilter opts.post_type (textFilter opts.only_text (dateFilter now opts.days_ago ps))

/-- Outcome of `app.search_reddit` for one interaction: the plain
"no results" warning with `None` result, the reverted outcome (warning
naming the original count, original classified set returned), or the
filtered result set. -/
inductive SearchResult where
  | noResults : SearchResult
  | reverted : List ClassifiedPost → Nat → SearchResult
  | results : List ClassifiedPost → SearchResult
deriving DecidableEq

/-- `app.search_reddit`: fetch, format, empty-check, classify, snapshot
the original, filter, and either revert (empty after filters that were
applied), report no results, or return the filtered set.  `now` is the
evaluation time (`datetime.datetime.now()`), `classify` the classifier
capability, `md` the corpus behind `RedditAPI`. -/
def searchReddit (md : MockData) (classify : String → String → Classification)
    (now : Int) (query : String) (subreddit : Option String) (limit : Nat)
    (opts : FilterOpts) (use_mock_data : Bool) : SearchResult :=
  let posts := searchPosts md query subreddit limit use_mock_data
  let df := formatPosts posts
  if df.isEmpty then SearchResult.noResults
  else
    let cdf := classifyAll classify df
    let filtered := applyFilters now opts cdf
    if filtered.isEmpty && filtersApplied opts then SearchResult.reverted cdf cdf.length
    else if filtered.isEmpty then SearchResult.noResults
    else SearchResult.results filtered

/-- Number of classifier invocations one `search_reddit` interaction
performs: zero on the empty-fetch short-circuit, otherwise one per
fetched row (`classify_posts_dataframe` is the only classification
call site). -/
def searchRedditCalls (md : MockData) (query : String) (subreddit : Option String)
    (limit : Nat) (use_mock_data : Bool) : Nat :=
  let df := formatPosts (searchPosts md query subreddit limit use_mock_data)
  if df.isEmpty then 0 else classifyCalls df

/- ------------------------------------------------------------------
Concrete data used by witnesses and counterexamples.
------------------------------------------------------------------ -/

/-- A mock-corpus post under the `python` topic, shaped like the
generator's output. -/
def samplePost : RawPost :=
  { id := "abc123", title := "Dúvida sobre python: como resolver?",
    selftext := "Estou com um problema difícil no meu código.",
    author := "dev", subreddit := "python", score := 10, num_comments := 3,
    created_utc := 1700000000,
    full_link := "https://www.reddit.com/r/python/comments/abc123/x/", is_self := true }

/-- A one-topic corpus containing `samplePost`. -/
def sampleCorpus : MockData := [("python", [samplePost])]

/-- A raw post whose permalink is community-relative (the shape PRAW
permalinks have before any rewriting). -/
def relativeLinkPost : RawPost :=
  { id := "rel001", title := "Post com permalink relativo",
    selftext := "corpo do post", author := "dev", subreddit := "python",
    score := 1, num_comments := 0, created_utc := 1700000000,
    full_link := "/r/python/comments/rel001/post_com_permalink_relativo/",
    is_self := true }

/-- A classified post with category `tutorial` (lower-case, as a remote
classifier may return it). -/
def tutorialPost : ClassifiedPost :=
  { id := "t1", title := "Guia", selftext := "um corpo de texto longo",
    author := "a", subreddit := "python", score := 5, num_comments := 1,
    created_date := "2025-06-01 00:00:00",
    url := "https://www.reddit.com/r/python/comments/t1/x/", is_self := true,
    categoria := "tutorial", sentimento := "Neutro",
    topicos := "Programação", insights := "i" }

/-- A classified post with category `Pergunta`. -/
def perguntaPost : ClassifiedPost :=
  { id := "q1", title := "Dúvida?", selftext := "outro corpo de texto longo",
    author := "b", subreddit := "python", score := 2, num_comments := 0,
    created_date := "2025-06-01 00:00:00",
    url := "https://www.reddit.com/r/python/comments/q1/x/", is_self := true,
    categoria := "Pergunta", sentimento := "Neutro",
    topicos := "Programação", insights := "i" }

/-- A classified post whose `created_date` does not parse and whose
body is below the only-text threshold. -/
def badDatePost : ClassifiedPost :=
  { id := "bd1", title := "t", selftext := "curto",
    author := "c", subreddit := "python", score := 0, num_comments := 0,
    created_date := "not-a-date",
    url := "https://www.reddit.com/r/python/comments/bd1/x/", is_self := true,
    categoria := "Discussão", sentimento := "Neutro",
    topicos := "Discussão Geral", insights := "i" }

/-- A classified post with a long body and an old, parseable date. -/
def oldPost : ClassifiedPost :=
  { id := "old1", title := "t", selftext := "um corpo de texto bem longo",
    author := "d", subreddit := "python", score := 0, num_comments := 0,
    created_date := "2020-01-01 00:00:00",
    url := "https://www.reddit.com/r/python/comments/old1/x/", is_self := true,
    categoria := "Discussão", sentimento := "Neutro",
    topicos := "Discussão Geral", insights := "i" }

/-- A classified post with a long body and a recent, parseable date. -/
def recentPost : ClassifiedPost :=
  { id := "new1", title := "t", selftext := "outro corpo de texto bem longo",
    author := "e", subreddit := "python", score := 0, num_comments := 0,
    created_date := "2025-06-01 00:00:00",
    url := "https://www.reddit.com/r/python/comments/new1/x/", is_self := true,
    categoria := "Discussão", sentimento := "Neutro",
    topicos := "Discussão Geral", insights := "i" }

/-- Evaluation instant used in filter scenarios: 2025-06-01 00:00:00. -/
def sampleNow : Int := (parseDate "2025-06-01 00:00:00").getD 0

/-- Filter options with only the date and only-text filters enabled. -/
def dateTextOpts : FilterOpts :=
  { days_ago := some 7, only_text := true, post_type := none }

/-- Filter options with only the category filter enabled, set to a
category no post carries. -/
def unmatchedCategoryOpts : FilterOpts :=
  { days_ago := none, only_text := false, post_type := some "Notícia" }

/-- Filter options with every filter disabled (the defaults of
`search_reddit`). -/
def defaultOpts : FilterOpts :=
  { days_ago := none, only_text := false, post_type := none }

/- ------------------------------------------------------------------
Helper lemmas about the rule-based fallback classifier.
------------------------------------------------------------------ -/

theorem mockClassify_categoria (t x : String) :
    (mockClassify t x).categoria = mockCategory t := rfl

theorem mockClassify_sentimento (t x : String) :
    (mockClassify t x).sentimento = mockSentiment (pyLower x) := rfl

theorem mockClassify_topicos (t x : String) :
    (mockClassify t x).topicos = mockTopics (pyLower t) (pyLower x) := rfl

theorem mockClassify_insights (t x : String) :
    (mockClassify t x).insights =
      mockInsights (mockCategory t) (mockSentiment (pyLower x))
        (mockTopics (pyLower t) (pyLower x)) := rfl

theorem mockCategory_mem (t : String) : mockCategory t ∈ categories := by
  simp only [mockCategory]
  repeat' split
  all_goals decide

theorem mockSentiment_mem (t : String) : mockSentiment t ∈ sentiments := by
  simp only [mockSentiment]
  repeat' split
  all_goals decide

theorem mockSentiment_ne_misto (t : String) : mockSentiment t ≠ "Misto" := by
  unfold mockSentiment
  split
  · decide
  · split
    · decide
    · split
      · next h1 h2 h3 =>
          exfalso
          apply h1
          simp only [Bool.and_eq_true, List.any_cons, List.any_nil, Bool.or_false,
            Bool.or_eq_true] at h3
          obtain ⟨-, hp, -⟩ := h3
          simp only [positiveWords, List.any_cons, List.any_nil, Bool.or_false,
            Bool.or_eq_true]
          tauto
      · decide

theorem mockTopics_ne_nil (a b : String) : mockTopics a b ≠ [] := by
  simp only [mockTopics]
  split
  · decide
  · next h => exact h

theorem insightsBase_length_le (c s : String) (tp : List String) :
    (insightsBase c s tp).length ≤ 4 := by
  unfold insightsBase
  repeat' split
  all_goals decide

theorem mockInsights_length_pos (c s : String) (tp : List String) :
    1 ≤ (mockInsights c s tp).length := by
  simp only [mockInsights]
  split
  · simp [List.length_append]
  · next h => omega

theorem mockInsights_length_le (c s : String) (tp : List String) :
    (mockInsights c s tp).length ≤ 4 := by
  simp only [mockInsights]
  split
  · next h => simp only [List.length_append, List.length_cons, List.length_nil]; omega
  · exact insightsBase_length_le c s tp

theorem mockInsights_ne_nil (c s : String) (tp : List String) :
    mockInsights c s tp ≠ [] := by
  have h := mockInsights_length_pos c s tp
  exact List.length_pos.mp h

/- ------------------------------------------------------------------
Claims C1, C2, C3, C5, C6.
------------------------------------------------------------------ -/

/-- C1 (counterexample): with live mode selected (`use_mock_data=False`)
the live path is unavailable, yet `search_posts` does not return an
empty sequence: on a corpus holding one `python` post it returns that
substitute post, refuting "the caller receives empty, never substitute
data". -/
theorem c1_counterexample :
    searchPosts sampleCorpus "python" none 25 false = [samplePost] ∧
    searchPosts sampleCorpus "python" none 25 false ≠ [] :=
  ⟨by decide, by decide⟩

/-- C1 (amended): when the Post Source is in live mode and the live
path is unavailable, `search_posts` raises no exception but falls back
to the mock-data search: it returns exactly the mock-mode result —
substitute data, possibly non-empty — and is empty only when the mock
search itself finds nothing. -/
theorem c1_live_mode_falls_back (md : MockData) (query : String)
    (subreddit : Option String) (limit : Nat) :
    searchPosts md query subreddit limit false = searchMockData md query subreddit limit ∧
    searchPosts md query subreddit limit false = searchPosts md query subreddit limit true :=
  ⟨rfl, rfl⟩

/-- C2 (counterexample): `format_posts` performs no permalink
rewriting: a community-relative `full_link` survives verbatim as the
formatted `url`, which does not start with a scheme — refuting "every
FormattedPost has an absolute URL". -/
theorem c2_counterexample :
    (formatPosts [relativeLinkPost]).map (fun p => p.url) =
      ["/r/python/comments/rel001/post_com_permalink_relativo/"] ∧
    is_url "/r/python/comments/rel001/post_com_permalink_relativo/" = false :=
  ⟨by decide, by decide⟩

/-- C2 (amended): `format_posts` passes every permalink through
unchanged — each FormattedPost's URL equals the raw post's `full_link`,
with no rewriting of community-relative permalinks — so the URL is
absolute exactly when the source permalink already was (as is the case
for every synthetic-corpus post). -/
theorem c2_url_passthrough (posts : List RawPost) :
    (formatPosts posts).map (fun p => p.url) = posts.map (fun p => p.full_link) := by
  unfold formatPosts
  rw [List.map_map]
  rfl

/-- C3: whenever the remote inference path fails (modelled as
`remote = none`, covering transport, auth and JSON failures) —
and in mock mode likewise — `classify_post` answers through the
rule-based fallback with exactly four well-typed fields: category in
the closed vocabulary, sentiment in the four-value vocabulary, and
non-empty topic and insight lists; the function is total, so no
exception reaches the caller. -/
theorem c3_fallback_contract (use_mock : Bool) (title text : String) :
    (classify_post none use_mock title text).categoria ∈ categories ∧
    (classify_post none use_mock title text).sentimento ∈ sentiments ∧
    (classify_post none use_mock title text).topicos ≠ [] ∧
    (classify_post none use_mock title text).insights ≠ [] := by
  have h : classify_post none use_mock title text = mockClassify title text := by
    cases use_mock <;> rfl
  rw [h, mockClassify_categoria, mockClassify_sentimento, mockClassify_topicos,
    mockClassify_insights]
  exact ⟨mockCategory_mem _, mockSentiment_mem _, mockTopics_ne_nil _ _,
    mockInsights_ne_nil _ _ _⟩

/-- C5 (code bug): a body holding a contrast connective (`mas`), a
positive keyword (`gosto`) and a negative keyword (`problema`) is
classified `Positivo`, not `Misto`: the positive-keyword branch of the
`if/elif` chain fires first, and since the `Misto` condition requires
`bom` or `gosto` — both in the positive list — the `Misto` branch is
unreachable for every input. -/
theorem c5_mixed_unreachable :
    (mockClassify "desabafo" "gosto do python, mas é um problema").sentimento = "Positivo" ∧
    ∀ title text : String, (mockClassify title text).sentimento ≠ "Misto" := by
  refine ⟨by decide, ?_⟩
  intro title text
  rw [mockClassify_sentimento]
  exact mockSentiment_ne_misto _

/-- C6 (counterexample): a help-request title with a negative body
matching the programming and career topics receives four insights —
refuting the claimed upper bound of three. -/
theorem c6_counterexample :
    (mockClassify "preciso de ajuda" "ruim código carreira").insights.length = 4 ∧
    ¬ (mockClassify "preciso de ajuda" "ruim código carreira").insights.length ≤ 3 :=
  ⟨by decide, by decide⟩

/-- C6 (amended): for every title and body, the rule-based fallback
classifier returns between 1 and 4 insights inclusive (at most one from
each of the four conditional templates, with the generic insight added
when fewer than two were produced). -/
theorem c6_insights_length_amended (title text : String) :
    1 ≤ (mockClassify title text).insights.length ∧
    (mockClassify title text).insights.length ≤ 4 := by
  rw [mockClassify_insights]
  exact ⟨mockInsights_length_pos _ _ _, mockInsights_length_le _ _ _⟩

/- ------------------------------------------------------------------
Helper lemmas about the filter stage.
------------------------------------------------------------------ -/

theorem dateFilter_sublist (now : Int) (da : Option Nat) (ps : List ClassifiedPost) :
    (dateFilter now da ps).Sublist ps := by
  unfold dateFilter
  repeat' split
  · exact List.filter_sublist ps
  · exact List.Sublist.refl ps
  · exact List.Sublist.refl ps

theorem textFilter_sublist (b : Bool) (ps : List ClassifiedPost) :
    (textFilter b ps).Sublist ps := by
  unfold textFilter
  split
  · exact List.filter_sublist ps
  · exact List.Sublist.refl ps

theorem categoryFilter_sublist (pt : Option String) (ps : List ClassifiedPost) :
    (categoryFilter pt ps).Sublist ps := by
  unfold categoryFilter
  split
  · exact List.filter_sublist ps
  · exact List.Sublist.refl ps

theorem applyFilters_sublist (now : Int) (opts : FilterOpts) (ps : List ClassifiedPost) :
    (applyFilters now opts ps).Sublist ps := by
  unfold applyFilters
  exact ((categoryFilter_sublist _ _).trans (textFilter_sublist _ _)).trans
    (dateFilter_sublist _ _ _)

theorem categoryFilter_idem (pt : Option String) (xs : List ClassifiedPost) :
    categoryFilter pt (categoryFilter pt xs) = categoryFilter pt xs := by
  unfold categoryFilter
  split
  · simp [List.filter_filter, Bool.and_self]
  · rfl

/- ------------------------------------------------------------------
Claims C8, C9, C10.
------------------------------------------------------------------ -/

/-- C10: the filter stage's (pre-revert) output is a subsequence of
its input: no post is added, the relative order of retained posts is
unchanged, and every retained post is one of the input's immutable
post values, all fields included (the transient pandas `datetime`
scratch column sits outside the modelled record and touches none of
the thirteen listed fields). -/
theorem c10_filter_stage_sublist (now : Int) (opts : FilterOpts) (ps : List ClassifiedPost) :
    (applyFilters now opts ps).Sublist ps :=
  applyFilters_sublist now opts ps

/-- C8: a category filter value from the closed vocabulary keeps
exactly the posts whose `categoria` equals it case-insensitively, and
the all-types sentinel (the spec's "all", `"Todos os tipos"` in the
source, likewise an unset option) disables the predicate entirely. -/
theorem c8_category_filter (ps : List ClassifiedPost) (v : String) (hv : v ∈ categories) :
    categoryFilter (some v) ps =
      ps.filter (fun p => pyLower p.categoria == pyLower v) ∧
    categoryFilter (some "Todos os tipos") ps = ps ∧
    categoryFilter none ps = ps := by
  refine ⟨?_, ?_, rfl⟩
  · have ht : typeTruthy (some v) = true := by fin_cases hv <;> decide
    unfold categoryFilter
    rw [ht]
    rfl
  · unfold categoryFilter
    rw [show typeTruthy (some "Todos os tipos") = false from by decide]
    simp

/-- C8 (witness): filtering a tutorial post (category stored as
lower-case `tutorial`) and a question post with the vocabulary value
`Tutorial` keeps exactly the tutorial post; the sentinel keeps both. -/
theorem c8_witness :
    "Tutorial" ∈ categories ∧
    categoryFilter (some "Tutorial") [tutorialPost, perguntaPost] = [tutorialPost] ∧
    categoryFilter (some "Todos os tipos") [tutorialPost, perguntaPost] =
      [tutorialPost, perguntaPost] := by
  refine ⟨by decide, ?_, ?_⟩
  · rw [(c8_category_filter [tutorialPost, perguntaPost] "Tutorial" (by decide)).1]
    decide
  · exact (c8_category_filter [tutorialPost, perguntaPost] "Tutorial" (by decide)).2.1

/-- C9 (counterexample): with a 7-day window and the only-text filter,
an input whose unparseable-date post is also the short-body post breaks
idempotence: the first pass skips the date predicate (fail-open) and
drops only the short post, while the second pass — now free of parse
failures — also drops the old post.  Both passes use the same
evaluation time. -/
theorem c9_counterexample :
    applyFilters sampleNow dateTextOpts [badDatePost, oldPost, recentPost] =
      [oldPost, recentPost] ∧
    applyFilters sampleNow dateTextOpts
        (applyFilters sampleNow dateTextOpts [badDatePost, oldPost, recentPost]) =
      [recentPost] ∧
    applyFilters sampleNow dateTextOpts
        (applyFilters sampleNow dateTextOpts [badDatePost, oldPost, recentPost]) ≠
      applyFilters sampleNow dateTextOpts [badDatePost, oldPost, recentPost] :=
  ⟨by decide, by decide, by decide⟩


theorem applyFilters_def (now : Int) (opts : FilterOpts) (ps : List ClassifiedPost) :
    applyFilters now opts ps =
      categoryFilter opts.post_type
        (textFilter opts.only_text (dateFilter now opts.days_ago ps)) := rfl

theorem dateFilter_disabled (now : Int) (da : Option Nat) (ps : List ClassifiedPost)
    (hd : daysTruthy da = false) : dateFilter now da ps = ps := by
  unfold dateFilter
  rw [hd]
  rfl

theorem dateFilter_all_parsed (now : Int) (da : Option Nat) (ps : List ClassifiedPost)
    (hd : daysTruthy da = true)
    (hall : ∀ p ∈ ps, (parseDate p.created_date).isSome = true) :
    dateFilter now da ps = ps.filter (datePred now (da.getD 0)) := by
  unfold dateFilter
  rw [hd, List.all_eq_true.mpr hall]
  rfl

theorem textFilter_true (ps : List ClassifiedPost) :
    textFilter true ps = ps.filter textPred := rfl

theorem textFilter_false (ps : List ClassifiedPost) :
    textFilter false ps = ps := rfl

theorem categoryFilter_enabled (pt : Option String) (ps : List ClassifiedPost)
    (ht : typeTruthy pt = true) : categoryFilter pt ps = ps.filter (catPred pt) := by
  unfold categoryFilter
  rw [ht]
  rfl

theorem categoryFilter_disabled (pt : Option String) (ps : List ClassifiedPost)
    (ht : typeTruthy pt = false) : categoryFilter pt ps = ps := by
  unfold categoryFilter
  rw [ht]
  rfl

/-- C9 (amended): re-running the filter with identical options and the
same evaluation time on its own output returns it unchanged, provided
the first pass did not skip the date predicate through the fail-open
parse rule — that is, whenever the date filter is disabled or every
input post's date parses.  (When a parse failure skipped the date
predicate, a second pass may remove further posts, as the
counterexample shows.) -/
theorem c9_filter_idempotent (now : Int) (opts : FilterOpts) (ps : List ClassifiedPost)
    (h : daysTruthy opts.days_ago = false ∨
         ∀ p ∈ ps, (parseDate p.created_date).isSome = true) :
    applyFilters now opts (applyFilters now opts ps) = applyFilters now opts ps := by
  have hy_sub : (applyFilters now opts ps).Sublist ps := applyFilters_sublist now opts ps
  have h1 : dateFilter now opts.days_ago (applyFilters now opts ps) =
      applyFilters now opts ps := by
    cases hd : daysTruthy opts.days_ago with
    | false => exact dateFilter_disabled _ _ _ hd
    | true =>
        rcases h with h | hall
        · rw [hd] at h; exact Bool.noConfusion h
        · have hall_y : ∀ a ∈ applyFilters now opts ps,
              (parseDate a.created_date).isSome = true :=
            fun a ha => hall a (hy_sub.subset ha)
          rw [dateFilter_all_parsed now opts.days_ago (applyFilters now opts ps) hd hall_y]
          apply List.filter_eq_self.mpr
          intro a ha
          rw [applyFilters_def] at ha
          have hmem : a ∈ dateFilter now opts.days_ago ps :=
            ((categoryFilter_sublist _ _).trans (textFilter_sublist _ _)).subset ha
          rw [dateFilter_all_parsed now opts.days_ago ps hd hall] at hmem
          exact (List.mem_filter.mp hmem).2
  have h2 : textFilter opts.only_text (applyFilters now opts ps) =
      applyFilters now opts ps := by
    cases hb : opts.only_text with
    | false => exact textFilter_false _
    | true =>
        rw [textFilter_true]
        apply List.filter_eq_self.mpr
        intro a ha
        rw [applyFilters_def] at ha
        have hmem : a ∈ textFilter opts.only_text (dateFilter now opts.days_ago ps) :=
          (categoryFilter_sublist _ _).subset ha
        rw [hb, textFilter_true] at hmem
        exact (List.mem_filter.mp hmem).2
  have h3 : categoryFilter opts.post_type (applyFilters now opts ps) =
      applyFilters now opts ps := by
    cases ht : typeTruthy opts.post_type with
    | false => exact categoryFilter_disabled _ _ ht
    | true =>
        rw [categoryFilter_enabled _ _ ht]
        apply List.filter_eq_self.mpr
        intro a ha
        rw [applyFilters_def, categoryFilter_enabled _ _ ht] at ha
        exact (List.mem_filter.mp ha).2
  rw [applyFilters_def now opts (applyFilters now opts ps), h1, h2, h3]

/-- C9 (witness): on an all-parseable two-post input with the date and
only-text filters enabled, a second identical filter pass returns the
first pass's output unchanged. -/
theorem c9_witness :
    (∀ p ∈ [oldPost, recentPost], (parseDate p.created_date).isSome = true) ∧
    applyFilters sampleNow dateTextOpts
        (applyFilters sampleNow dateTextOpts [oldPost, recentPost]) =
      applyFilters sampleNow dateTextOpts [oldPost, recentPost] :=
  ⟨by decide,
   c9_filter_idempotent sampleNow dateTextOpts [oldPost, recentPost] (Or.inr (by decide))⟩

/- ------------------------------------------------------------------
Claims C4 and C7 (the orchestrator `app.search_reddit`).
------------------------------------------------------------------ -/

/-- C4: when at least one filter is applied and the conjunctive filters
eliminate every post, `search_reddit` returns the full pre-filter
classified sequence wrapped in the reverted signal together with the
original unfiltered count; and when the input is empty before any
filtering, it signals "no results", a constructor distinct from the
reverted one. -/
theorem c4_revert_and_no_results (md : MockData)
    (classify : String → String → Classification) (now : Int) (query : String)
    (subreddit : Option String) (limit : Nat) (opts : FilterOpts)
    (use_mock_data : Bool) :
    (formatPosts (searchPosts md query subreddit limit use_mock_data) ≠ [] →
      filtersApplied opts = true →
      applyFilters now opts
          (classifyAll classify
            (formatPosts (searchPosts md query subreddit limit use_mock_data))) = [] →
      searchReddit md classify now query subreddit limit opts use_mock_data =
        SearchResult.reverted
          (classifyAll classify
            (formatPosts (searchPosts md query subreddit limit use_mock_data)))
          (classifyAll classify
            (formatPosts (searchPosts md query subreddit limit use_mock_data))).length) ∧
    (formatPosts (searchPosts md query subreddit limit use_mock_data) = [] →
      searchReddit md classify now query subreddit limit opts use_mock_data =
        SearchResult.noResults) := by
  constructor
  · intro h1 h2 h3
    have hne : (formatPosts (searchPosts md query subreddit limit use_mock_data)).isEmpty
        = false := by
      cases hfp : formatPosts (searchPosts md query subreddit limit use_mock_data) with
      | nil => exact absurd hfp h1
      | cons a l => rfl
    simp only [searchReddit]
    rw [h3, hne, h2]
    rfl
  · intro h
    simp only [searchReddit]
    rw [h]
    rfl

/-- C4 (witness): on the one-post corpus, searching `python` with only
the category filter set to the unmatched `Notícia` eliminates the lone
classified post, and `search_reddit` reverts to the classified
pre-filter sequence, surfacing the original unfiltered count, which is
1. -/
theorem c4_witness :
    searchReddit sampleCorpus mockClassify 0 "python" none 25 unmatchedCategoryOpts false =
      SearchResult.reverted
        (classifyAll mockClassify (formatPosts (searchPosts sampleCorpus "python" none 25 false)))
        (classifyAll mockClassify
          (formatPosts (searchPosts sampleCorpus "python" none 25 false))).length ∧
    (classifyAll mockClassify
      (formatPosts (searchPosts sampleCorpus "python" none 25 false))).length = 1 :=
  ⟨(c4_revert_and_no_results sampleCorpus mockClassify 0 "python" none 25
      unmatchedCategoryOpts false).1 (by decide) (by decide) (by decide),
   by decide⟩

/-- C7: if the fetch stage returns zero posts, `search_reddit`
short-circuits with the "no results" signal before the classification
stage, and the classifier is invoked on no post of the interaction
(zero `classify_post` calls). -/
theorem c7_empty_fetch_short_circuits (md : MockData)
    (classify : String → String → Classification) (now : Int) (query : String)
    (subreddit : Option String) (limit : Nat) (opts : FilterOpts)
    (use_mock_data : Bool)
    (h : searchPosts md query subreddit limit use_mock_data = []) :
    searchReddit md classify now query subreddit limit opts use_mock_data =
      SearchResult.noResults ∧
    searchRedditCalls md query subreddit limit use_mock_data = 0 := by
  constructor
  · simp only [searchReddit]
    rw [h]
    rfl
  · simp only [searchRedditCalls]
    rw [h]
    rfl

/-- C7 (witness): the spec's scenario — the query `zzzznoexist` with
limit 10 fetches nothing from the sample corpus, the orchestrator
answers "no results", and zero classifier calls are made. -/
theorem c7_witness :
    searchReddit sampleCorpus mockClassify 0 "zzzznoexist" none 10 defaultOpts false =
      SearchResult.noResults ∧
    searchRedditCalls sampleCorpus "zzzznoexist" none 10 false = 0 :=
  c7_empty_fetch_short_circuits sampleCorpus mockClassify 0 "zzzznoexist" none 10
    defaultOpts false (by decide)
